import Mathlib

/-!
Verification of the TLS socket transport of the Apache Thrift c_glib
library against its design description. The data model is embedded from
the header `thrift_ssl_socket.h`. The bodies of the functions the header
declares are not part of the repository snapshot, so where a claim needs
behaviour, that behaviour is modelled from the design description and the
doc comments of the header, as noted on each such definition.
-/

namespace ThriftSSL

/-- Error kinds of the SSL socket API, embedded from the C enum
`ThriftSSLSocketError` of `thrift_ssl_socket.h` (lines 53..58). The first
member carries the value 7 and the following members count up from it, as
the C enum does. -/
inductive ThriftSSLSocketError where
  | TRANSPORT
  | CIPHER_NOT_AVAILABLE
  | SSL
deriving DecidableEq, Repr, Fintype

/-- Numeric value each error kind carries in the C enum. -/
def errorCode : ThriftSSLSocketError → Nat
  | .TRANSPORT => 7
  | .CIPHER_NOT_AVAILABLE => 8
  | .SSL => 9

/-- Protocol selectors, embedded from the C enum `_ThriftSSLSocketProtocol`
of `thrift_ssl_socket.h` (lines 96..105). The member SSLv2 (value 1) is
commented out of the C enum and therefore has no constructor here. -/
inductive ThriftSSLSocketProtocol where
  | SSLTLS
  | SSLv3
  | TLSv1_0
  | TLSv1_1
  | TLSv1_2
deriving DecidableEq, Repr, Fintype

/-- Numeric value each protocol selector carries in the C enum. -/
def protocolValue : ThriftSSLSocketProtocol → Nat
  | .SSLTLS => 0
  | .SSLv3 => 2
  | .TLSv1_0 => 3
  | .TLSv1_1 => 4
  | .TLSv1_2 => 5

/-- The alias LATEST = TLSv1_2 of the C enum (line 103). -/
def LATEST : ThriftSSLSocketProtocol := .TLSv1_2

/-- Every member of the protocol enum, in declaration order. -/
def allProtocols : List ThriftSSLSocketProtocol :=
  [.SSLTLS, .SSLv3, .TLSv1_0, .TLSv1_1, .TLSv1_2]

/-- An error record as surfaced through `thrift_ssl_socket_get_error`
(header line 131): the error kind, a human readable message and the code
of the underlying library error. -/
structure ErrorRecord where
  kind : ThriftSSLSocketError
  message : String
  underlying : Nat
deriving DecidableEq, Repr

/-- The error kind a fallible operation reported, if it failed. -/
def kindOf {α : Type} : Except ErrorRecord α → Option ThriftSSLSocketError
  | .ok _ => none
  | .error e => some e.kind

/-- Whether a fallible operation succeeded. -/
def succeeded {α : Type} : Except ErrorRecord α → Bool
  | .ok _ => true
  | .error _ => false

/-- Versions a context built with the given selector may negotiate, from
the member comments of the C enum: SSLTLS accepts old handshakes but only
negotiates at TLSv1_0 or later, SSLv3 negotiates SSLv3 only, and each TLS
selector means that version or later. -/
def negotiableVersions : ThriftSSLSocketProtocol → List ThriftSSLSocketProtocol
  | .SSLTLS => [.TLSv1_0, .TLSv1_1, .TLSv1_2]
  | .SSLv3 => [.SSLv3]
  | .TLSv1_0 => [.TLSv1_0, .TLSv1_1, .TLSv1_2]
  | .TLSv1_1 => [.TLSv1_1, .TLSv1_2]
  | .TLSv1_2 => [.TLSv1_2]

/-- Capability of the linked crypto library: whether at least one cipher
suite negotiable at the given protocol version is available. -/
structure LibraryCapability where
  cipherAvailable : ThriftSSLSocketProtocol → Bool

/-- An SSL context as produced by the context builder declared at header
lines 109..110: the requested selector together with the version the
cipher selection settled on. -/
structure SSL_CTX where
  requested : ThriftSSLSocketProtocol
  negotiated : ThriftSSLSocketProtocol
deriving DecidableEq, Repr

/-- First version of the list for which the library has a cipher suite. -/
def selectCipherVersion (lib : LibraryCapability) :
    List ThriftSSLSocketProtocol → Option ThriftSSLSocketProtocol
  | [] => none
  | v :: vs => if lib.cipherAvailable v then some v else selectCipherVersion lib vs

/-- Whether the library supports at least one cipher suite within the
range the selector requests. -/
def hasCipherInRange (lib : LibraryCapability) (p : ThriftSSLSocketProtocol) : Bool :=
  (negotiableVersions p).any lib.cipherAvailable

/-- Modelled from the spec: the body of the context builder
`thrift_ssl_socket_context_init...` declared at header lines 109..110 (the
implementation file is not part of the snapshot). It selects a cipher
suite set compatible with the requested range and fails with the kind
CIPHER_NOT_AVAILABLE when none is available. -/
def thrift_ssl_socket_context_init (lib : LibraryCapability)
    (ssl_protocol : ThriftSSLSocketProtocol) : Except ErrorRecord SSL_CTX :=
  match selectCipherVersion lib (negotiableVersions ssl_protocol) with
  | some v => .ok { requested := ssl_protocol, negotiated := v }
  | none => .error { kind := .CIPHER_NOT_AVAILABLE,
                     message := "No cipher suite available for the requested range",
                     underlying := 0 }

/-- Outcome of the built in chain verification of the library, recorded at
the end of the handshake: success, a failure whose only cause is a self
signed certificate, or any other failure. -/
inductive VerifyResult where
  | ok
  | failSelfSignedOnly
  | failOther
deriving DecidableEq, Repr, Fintype

/-- Verdict of the default peer check used when no authorization manager
is installed: accept when the library verified the chain, or when the only
failure is a self signed certificate and allow_selfsigned is set. -/
def defaultVerdict (allow_selfsigned : Bool) : VerifyResult → Bool
  | .ok => true
  | .failSelfSignedOnly => allow_selfsigned
  | .failOther => false

/-- Inputs of the peer verification step of one handshake: the role and
allow_selfsigned flags of the `_ThriftSSLSocket` instance (header lines
66..75), the authorization manager callback installed through
`thrift_ssl_socket_set_manager` if any, the certificate the peer presented
if any, the address of the peer, and the verdict of the built in chain
verification on the presented chain. -/
structure HandshakeInput (Cert Addr : Type) where
  server : Bool
  allow_selfsigned : Bool
  manager : Option (Cert → Addr → Bool)
  peerCert : Option Cert
  addr : Addr
  builtinVerify : VerifyResult

/-- Modelled from the spec: the peer verification step of the virtual
`handle_handshake` declared at header line 87 (the implementation file is
not part of the snapshot). A client that received no peer certificate
fails hard with the kind SSL; when a certificate is present and a manager
is installed, the verdict of the manager replaces the built in verdict;
with no manager the default verdict applies; every rejection is reported
with the kind SSL. A server that required no client certificate
proceeds. -/
def handle_handshake {Cert Addr : Type} (inp : HandshakeInput Cert Addr) :
    Except ErrorRecord Unit :=
  match inp.peerCert with
  | none =>
    if inp.server then .ok ()
    else .error { kind := .SSL,
                  message := "No certificate presented by the peer",
                  underlying := 0 }
  | some cert =>
    match inp.manager with
    | some authorize =>
      if authorize cert inp.addr then .ok ()
      else .error { kind := .SSL,
                    message := "Peer rejected by the authorization manager",
                    underlying := 0 }
    | none =>
      if defaultVerdict inp.allow_selfsigned inp.builtinVerify then .ok ()
      else .error { kind := .SSL,
                    message := "Certificate verification failed",
                    underlying := 0 }

/-- Conditions of the error queue of the underlying library, as the design
partitions them before translation. -/
inductive SSLLibError where
  | ioFailure (code : Nat)
  | cipherNegotiation (code : Nat)
  | protocolOrVerification (code : Nat)
  | authorizationRejected (code : Nat)
deriving DecidableEq, Repr

/-- Modelled from the spec: the error translation surfaced through
`thrift_ssl_socket_get_error` (header line 131): every condition of the
library error queue maps to one of the three exposed kinds, keeping the
code of the underlying error for diagnostics. -/
def translateError (msg : String) : SSLLibError → ErrorRecord
  | .ioFailure c => { kind := .TRANSPORT, message := msg, underlying := c }
  | .cipherNegotiation c => { kind := .CIPHER_NOT_AVAILABLE, message := msg, underlying := c }
  | .protocolOrVerification c => { kind := .SSL, message := msg, underlying := c }
  | .authorizationRejected c => { kind := .SSL, message := msg, underlying := c }

/-- Global state of the underlying crypto library that the app wide setup
function of the header (lines 166..167) prepares. -/
structure OpenSSLGlobalState where
  algorithmsRegistered : Bool
  errorStringsLoaded : Bool
  randSeeded : Bool
deriving DecidableEq, Repr

/-- Modelled from the spec: the body of the app wide crypto setup function
declared at header lines 166..167 (the implementation file is not part of
the snapshot). One time setup of the global state of the crypto library;
a call that finds the state already set up leaves it untouched; no call
returns an error. -/
def thrift_ssl_socket_init_openssl (s : OpenSSLGlobalState) :
    OpenSSLGlobalState × Option ErrorRecord :=
  if s.algorithmsRegistered && s.errorStringsLoaded && s.randSeeded then
    (s, none)
  else
    ({ algorithmsRegistered := true, errorStringsLoaded := true, randSeeded := true }, none)

/-- Lifecycle states of a TLS socket. -/
inductive SocketState where
  | idle
  | connecting
  | accepting
  | handshakeInProgress
  | established
  | failed
  | closed
deriving DecidableEq, Repr, Fintype

/-- Resource view of one `_ThriftSSLSocket` instance (header lines 66..75):
its lifecycle state, whether the per connection session object (the field
`ssl` of the struct) is live, and whether the wrapped socket handle of the
parent is open. -/
structure TlsSocketModel where
  state : SocketState
  sessionAllocated : Bool
  handleOpen : Bool
deriving DecidableEq, Repr

/-- How many resources of each kind one call to close released. -/
structure CloseEffect where
  sessionsReleased : Nat
  handlesReleased : Nat
deriving DecidableEq, Repr

/-- Modelled from the spec: the close operation of the socket (the struct
`_ThriftSSLSocket` of header lines 66..75 holds the `ssl` session object
and the wrapped socket of its parent; the implementation file is not part
of the snapshot). Callable from every state: it releases the session
object when live and the socket handle when open, always ends in the
closed state holding nothing, and surfaces an error of the underlying
close as a transport record without keeping any resource. -/
def thrift_ssl_socket_close (s : TlsSocketModel) (underlyingCloseFails : Bool) :
    TlsSocketModel × CloseEffect × Option ErrorRecord :=
  let sessions := if s.sessionAllocated then 1 else 0
  let handles := if s.handleOpen then 1 else 0
  let err := if s.handleOpen && underlyingCloseFails then
      some { kind := ThriftSSLSocketError.TRANSPORT,
             message := "Error reported while closing the underlying socket",
             underlying := 0 }
    else none
  ({ state := .closed, sessionAllocated := false, handleOpen := false },
   { sessionsReleased := sessions, handlesReleased := handles }, err)

/-- One C declaration of the public surface of the header: its name,
whether the operation can fail, and whether its signature carries a GError
out parameter through which an error record reaches the caller. -/
structure CDecl where
  name : String
  fallible : Bool
  hasErrorOut : Bool
deriving DecidableEq, Repr

/-- The functions `thrift_ssl_socket.h` declares (lines 87..89, 109..110
and 131..178), with the fallibility and error reporting their signatures
show: the constructors, the context builder and the virtual handshake
hooks take a GError out parameter, while the two certificate loaders
(lines 150..153) return only a gboolean. -/
def headerDecls : List CDecl :=
  [ { name := "thrift_ssl_socket_new_with_host", fallible := true, hasErrorOut := true },
    { name := "thrift_ssl_socket_new", fallible := true, hasErrorOut := true },
    { name := "thrift_ssl_load_cert_from_file", fallible := true, hasErrorOut := false },
    { name := "thrift_ssl_load_cert_from_buffer", fallible := true, hasErrorOut := false },
    { name := "thrift_ssl_socket_context_init", fallible := true, hasErrorOut := true },
    { name := "handle_handshake", fallible := true, hasErrorOut := true },
    { name := "create_ssl_context", fallible := true, hasErrorOut := true },
    { name := "authorize_peer", fallible := true, hasErrorOut := true },
    { name := "thrift_ssl_socket_get_error", fallible := false, hasErrorOut := true },
    { name := "thrift_ssl_socket_set_manager", fallible := false, hasErrorOut := false },
    { name := "thrift_ssl_socket_init_openssl", fallible := false, hasErrorOut := false },
    { name := "thrift_ssl_socket_finalize_openssl", fallible := false, hasErrorOut := false } ]

/-- A library build with no cipher suites available at any version. -/
def strippedLibrary : LibraryCapability := { cipherAvailable := fun _ => false }

/-- Cipher selection over a version list succeeds exactly when some listed
version carries an available cipher suite. -/
theorem selectCipherVersion_isSome (lib : LibraryCapability)
    (vs : List ThriftSSLSocketProtocol) :
    (selectCipherVersion lib vs).isSome = vs.any lib.cipherAvailable := by
  induction vs with
  | nil => rfl
  | cons v vs ih =>
    cases h : lib.cipherAvailable v <;> simp [selectCipherVersion, h, ih]

/-- Claim C1: the error classification exposed to callers consists of
exactly the three kinds TRANSPORT, CIPHER_NOT_AVAILABLE and SSL, and every
failure of a fallible TLS operation — error translation, the handshake and
context construction — is reported as one of these kinds, never any
other. -/
theorem error_taxonomy_is_exactly_three :
    Fintype.card ThriftSSLSocketError = 3 ∧
    (∀ e : ThriftSSLSocketError,
      e = .TRANSPORT ∨ e = .CIPHER_NOT_AVAILABLE ∨ e = .SSL) ∧
    (∀ (msg : String) (le : SSLLibError),
      (translateError msg le).kind = .TRANSPORT ∨
      (translateError msg le).kind = .CIPHER_NOT_AVAILABLE ∨
      (translateError msg le).kind = .SSL) ∧
    (∀ (Cert Addr : Type) (inp : HandshakeInput Cert Addr),
      kindOf (handle_handshake inp) = none ∨
      kindOf (handle_handshake inp) = some .SSL) ∧
    (∀ (lib : LibraryCapability) (p : ThriftSSLSocketProtocol),
      kindOf (thrift_ssl_socket_context_init lib p) = none ∨
      kindOf (thrift_ssl_socket_context_init lib p) = some .CIPHER_NOT_AVAILABLE) := by
  refine ⟨by decide, by decide, ?_, ?_, ?_⟩
  · intro msg le
    cases le <;> simp [translateError]
  · intro Cert Addr inp
    obtain ⟨server, allow, manager, peerCert, addr, bv⟩ := inp
    cases peerCert with
    | none => cases server <;> simp [handle_handshake, kindOf]
    | some cert =>
      cases manager with
      | none =>
        cases h : defaultVerdict allow bv <;> simp [handle_handshake, kindOf, h]
      | some f =>
        cases h : f cert addr <;> simp [handle_handshake, kindOf, h]
  · intro lib p
    unfold thrift_ssl_socket_context_init
    cases selectCipherVersion lib (negotiableVersions p) <;> simp [kindOf]

/-- Claim C2: when an authorization manager is installed and a peer
certificate is presented, the verdict of the manager alone decides the
handshake, whatever the built in verification verdict: rejection fails
with the kind SSL and acceptance succeeds. -/
theorem authorize_peer_verdict_decides (Cert Addr : Type)
    (f : Cert → Addr → Bool) (cert : Cert) (addr : Addr)
    (server allow : Bool) (bv : VerifyResult) :
    succeeded (handle_handshake
      { server := server, allow_selfsigned := allow, manager := some f,
        peerCert := some cert, addr := addr, builtinVerify := bv }) = f cert addr ∧
    kindOf (handle_handshake
      { server := server, allow_selfsigned := allow, manager := some f,
        peerCert := some cert, addr := addr, builtinVerify := bv }) =
      (if f cert addr then none else some .SSL) := by
  cases h : f cert addr <;> simp [handle_handshake, succeeded, kindOf, h]

/-- Claim C3: with no authorization manager installed and a certificate
presented, the peer is accepted exactly when the built in verification
succeeded or its only failure is a self signed certificate while
allow_selfsigned is set; in particular a self signed peer with
allow_selfsigned false fails with the kind SSL. -/
theorem no_manager_default_verdict (Cert Addr : Type)
    (cert : Cert) (addr : Addr) (server allow : Bool) (bv : VerifyResult) :
    (succeeded (handle_handshake
      { server := server, allow_selfsigned := allow, manager := none,
        peerCert := some cert, addr := addr, builtinVerify := bv }) = true ↔
      (bv = .ok ∨ (bv = .failSelfSignedOnly ∧ allow = true))) ∧
    kindOf (handle_handshake
      { server := server, allow_selfsigned := false, manager := none,
        peerCert := some cert, addr := addr,
        builtinVerify := .failSelfSignedOnly }) = some .SSL := by
  constructor
  · cases bv <;> cases allow <;>
      simp [handle_handshake, succeeded, defaultVerdict]
  · simp [handle_handshake, kindOf, defaultVerdict]

/-- Cipher selection finds no version when no listed version carries an
available cipher suite. -/
theorem selectCipherVersion_eq_none (lib : LibraryCapability)
    (vs : List ThriftSSLSocketProtocol) (h : vs.any lib.cipherAvailable = false) :
    selectCipherVersion lib vs = none := by
  induction vs with
  | nil => rfl
  | cons v vs ih =>
    simp only [List.any_cons, Bool.or_eq_false_iff] at h
    simp [selectCipherVersion, h.1, ih h.2]

/-- Context construction succeeds exactly when a cipher suite exists
within the requested range. -/
theorem context_init_succeeded (lib : LibraryCapability)
    (p : ThriftSSLSocketProtocol) :
    succeeded (thrift_ssl_socket_context_init lib p) = hasCipherInRange lib p := by
  unfold hasCipherInRange
  cases hc : (negotiableVersions p).any lib.cipherAvailable
  · have hn := selectCipherVersion_eq_none lib (negotiableVersions p) hc
    simp [thrift_ssl_socket_context_init, hn, succeeded]
  · have hs := selectCipherVersion_isSome lib (negotiableVersions p)
    rw [hc] at hs
    obtain ⟨v, hv⟩ := Option.isSome_iff_exists.mp hs
    simp [thrift_ssl_socket_context_init, hv, succeeded]

/-- The kind a failed context construction reports. -/
theorem context_init_kind (lib : LibraryCapability)
    (p : ThriftSSLSocketProtocol) :
    kindOf (thrift_ssl_socket_context_init lib p) =
      (if hasCipherInRange lib p then none else some .CIPHER_NOT_AVAILABLE) := by
  unfold hasCipherInRange
  cases hc : (negotiableVersions p).any lib.cipherAvailable
  · have hn := selectCipherVersion_eq_none lib (negotiableVersions p) hc
    simp [thrift_ssl_socket_context_init, hn, kindOf]
  · have hs := selectCipherVersion_isSome lib (negotiableVersions p)
    rw [hc] at hs
    obtain ⟨v, hv⟩ := Option.isSome_iff_exists.mp hs
    simp [thrift_ssl_socket_context_init, hv, kindOf]

/-- Claim C4: context construction succeeds exactly when the library
supports at least one cipher suite within the requested range, and
otherwise fails with the kind CIPHER_NOT_AVAILABLE. -/
theorem context_init_cipher_availability (lib : LibraryCapability)
    (p : ThriftSSLSocketProtocol) :
    succeeded (thrift_ssl_socket_context_init lib p) = hasCipherInRange lib p ∧
    kindOf (thrift_ssl_socket_context_init lib p) =
      (if hasCipherInRange lib p then none else some .CIPHER_NOT_AVAILABLE) :=
  ⟨context_init_succeeded lib p, context_init_kind lib p⟩

/-- Claim C5 counterexample: the error enum of the header has exactly
three members — TRANSPORT (7), CIPHER_NOT_AVAILABLE (8) and SSL (9), so no
member named UNSUPPORTED_PROTOCOL exists — and a context request whose
minimum version cannot be satisfied (a library build with no cipher suite
at any version, asked for TLSv1_2) fails with the kind
CIPHER_NOT_AVAILABLE. -/
theorem no_distinct_unsupported_protocol_code :
    Fintype.card ThriftSSLSocketError = 3 ∧
    errorCode .TRANSPORT = 7 ∧
    errorCode .CIPHER_NOT_AVAILABLE = 8 ∧
    errorCode .SSL = 9 ∧
    kindOf (thrift_ssl_socket_context_init strippedLibrary .TLSv1_2) =
      some .CIPHER_NOT_AVAILABLE := by
  exact ⟨by decide, rfl, rfl, rfl, rfl⟩

/-- Claim C5 amended: context construction validates the requested range
against library capability; a request whose minimum cannot be satisfied
(no negotiable version of the range carries a cipher suite) fails, and the
failure is reported with the kind CIPHER_NOT_AVAILABLE — one of the only
three codes the API exposes, with no distinct UNSUPPORTED_PROTOCOL or
CONTEXT_INIT_FAILED code. -/
theorem unsatisfied_minimum_reports_cipher_not_available
    (lib : LibraryCapability) (p : ThriftSSLSocketProtocol) :
    kindOf (thrift_ssl_socket_context_init lib p) =
      (if hasCipherInRange lib p then none else some .CIPHER_NOT_AVAILABLE) ∧
    Fintype.card ThriftSSLSocketError = 3 := by
  exact ⟨context_init_kind lib p, by decide⟩

/-- Claim C6 counterexample: the two certificate loaders of the header are
fallible — they return a gboolean success flag — yet their signatures
carry no GError out parameter, so their failure is a bare sentinel value
with no accompanying error record; and the exposed error enum has exactly
three members, none of them a file or parse kind. -/
theorem cert_loaders_lack_error_record :
    (headerDecls.any fun d =>
      d.name == "thrift_ssl_load_cert_from_file" && d.fallible && !d.hasErrorOut) = true ∧
    (headerDecls.any fun d =>
      d.name == "thrift_ssl_load_cert_from_buffer" && d.fallible && !d.hasErrorOut) = true ∧
    Fintype.card ThriftSSLSocketError = 3 := by
  exact ⟨by decide, by decide, by decide⟩

/-- Claim C6 amended: every fallible operation of the header other than
the two certificate loaders carries a GError out parameter; the loaders
are fallible but communicate failure only through their bare gboolean
return value. -/
theorem fallible_surface_error_reporting :
    (headerDecls.all fun d =>
      !d.fallible || d.hasErrorOut ||
        (d.name == "thrift_ssl_load_cert_from_file" ||
         d.name == "thrift_ssl_load_cert_from_buffer")) = true ∧
    (headerDecls.all fun d =>
      !(d.name == "thrift_ssl_load_cert_from_file" ||
        d.name == "thrift_ssl_load_cert_from_buffer") ||
        (d.fallible && !d.hasErrorOut)) = true := by
  exact ⟨by decide, by decide⟩

/-- Every call to the app wide crypto setup leaves the global state fully
set up. -/
theorem init_openssl_result (s : OpenSSLGlobalState) :
    (thrift_ssl_socket_init_openssl s).1 =
      { algorithmsRegistered := true, errorStringsLoaded := true,
        randSeeded := true } := by
  obtain ⟨a, b, c⟩ := s
  cases a <;> cases b <;> cases c <;> rfl

/-- Claim C7: the app wide crypto setup is idempotent: a second call
returns the state of the first call unchanged with no error, any number
of consecutive calls reaches the same state as one call, and no call —
the first included — produces an error. -/
theorem init_openssl_idempotent (s : OpenSSLGlobalState) (n : Nat) :
    thrift_ssl_socket_init_openssl (thrift_ssl_socket_init_openssl s).1 =
      ((thrift_ssl_socket_init_openssl s).1, none) ∧
    (fun t => (thrift_ssl_socket_init_openssl t).1)^[n + 1] s =
      (thrift_ssl_socket_init_openssl s).1 ∧
    (thrift_ssl_socket_init_openssl s).2 = none := by
  refine ⟨?_, ?_, ?_⟩
  · rw [init_openssl_result s]
    rfl
  · rw [Function.iterate_succ_apply']
    rw [init_openssl_result ((fun t => (thrift_ssl_socket_init_openssl t).1)^[n] s)]
    rw [init_openssl_result s]
  · obtain ⟨a, b, c⟩ := s
    cases a <;> cases b <;> cases c <;> rfl

/-- Claim C8: close is total over the lifecycle states and idempotent: one
call releases the live session and the open handle exactly once, ends in
the closed state holding nothing — whatever error the underlying close
reported — and a second call returns the same closed state, releases
nothing and produces no error. -/
theorem close_idempotent (s : TlsSocketModel) (e1 e2 : Bool) :
    (thrift_ssl_socket_close s e1).1.state = .closed ∧
    (thrift_ssl_socket_close s e1).1.sessionAllocated = false ∧
    (thrift_ssl_socket_close s e1).1.handleOpen = false ∧
    (thrift_ssl_socket_close s e1).2.1 =
      { sessionsReleased := if s.sessionAllocated then 1 else 0,
        handlesReleased := if s.handleOpen then 1 else 0 } ∧
    thrift_ssl_socket_close (thrift_ssl_socket_close s e1).1 e2 =
      ((thrift_ssl_socket_close s e1).1,
       { sessionsReleased := 0, handlesReleased := 0 }, none) := by
  exact ⟨rfl, rfl, rfl, rfl, rfl⟩

/-- Claim C9: a client handshake in which the server presented no
certificate fails with the kind SSL — with or without an authorization
manager installed, and whatever the built in verification verdict. -/
theorem client_missing_peer_certificate_fails (Cert Addr : Type)
    (manager : Option (Cert → Addr → Bool)) (allow : Bool) (addr : Addr)
    (bv : VerifyResult) :
    kindOf (handle_handshake
      { server := false, allow_selfsigned := allow, manager := manager,
        peerCert := none, addr := addr, builtinVerify := bv }) = some .SSL ∧
    succeeded (handle_handshake
      { server := false, allow_selfsigned := allow, manager := manager,
        peerCert := none, addr := addr, builtinVerify := bv }) = false := by
  exact ⟨rfl, rfl⟩

/-- Claim C10: LATEST is the alias of TLSv1_2; the five members of the
protocol enum carry exactly the values 0, 2, 3, 4 and 5 — the value 1 of
the commented out SSLv2 is absent — and no other member exists. -/
theorem protocol_enum_shape :
    LATEST = ThriftSSLSocketProtocol.TLSv1_2 ∧
    protocolValue LATEST = 5 ∧
    (∀ p : ThriftSSLSocketProtocol, p ∈ allProtocols) ∧
    allProtocols.map protocolValue = [0, 2, 3, 4, 5] := by
  refine ⟨rfl, rfl, ?_, rfl⟩
  intro p
  cases p <;> simp [allProtocols]

end ThriftSSL
